import Mathlib

/-!
Shallow embedding of the git-statuses scanning core
(src/gitinfo/mod.rs, src/gitinfo/status.rs, src/gitinfo/repoinfo.rs,
src/cli.rs, src/util.rs), together with theorems checking the
natural-language specification against it.

The git2 library is abstracted as a capability record `Repo`: each field
is the answer the library would give to the corresponding query
(`head`, `find_branch`, `find_reference`, `find_remote`, `remotes`,
`graph_ahead_behind`, `revwalk`, `statuses`, spawning `git fetch`).
The functions below are direct translations of the Rust functions of the
same names, branch for branch.
-/

/-- The `git2::RepositoryState` enumeration, as matched by `Status::new`. -/
inductive RepositoryState where
  | clean
  | merge
  | revert
  | revertSequence
  | cherryPick
  | cherryPickSequence
  | bisect
  | rebase
  | rebaseInteractive
  | rebaseMerge
  | applyMailbox
  | applyMailboxOrRebase
  deriving DecidableEq, Repr

/-- The status flags of one entry of `repo.statuses(...)` that the code
inspects (`is_ignored`, `is_wt_new`, ..., `is_conflicted`). -/
structure EntryStatus where
  isIgnored : Bool := false
  wtNew : Bool := false
  wtModified : Bool := false
  wtDeleted : Bool := false
  indexNew : Bool := false
  indexModified : Bool := false
  indexDeleted : Bool := false
  conflicted : Bool := false
  deriving DecidableEq, Repr

/-- A git reference as the code reads it: `is_branch()`, `shorthand()`,
`target()` and `symbolic_target()`. Object ids are modelled as `Nat`. -/
structure RefM where
  isBranch : Bool := false
  shorthand : Option String := none
  target : Option Nat := none
  symbolicTarget : Option String := none
  deriving DecidableEq, Repr

/-- The upstream branch of a local branch; only `get().target()` is read. -/
structure UpstreamM where
  target : Option Nat := none
  deriving DecidableEq, Repr

/-- A local branch: its tip (`get().target()`) and its configured upstream
(`upstream()`, `none` when the lookup errs). -/
structure BranchM where
  target : Option Nat := none
  upstream : Option UpstreamM := none
  deriving DecidableEq, Repr

/-- A remote; only `url()` is read. -/
structure RemoteM where
  url : Option String := none
  deriving DecidableEq, Repr

/-- Capability view of an opened `git2::Repository`.
`none` models the fallible query returning `Err`.
`revwalk`: `none` models `repo.revwalk()` failing; applying the carried
function to the pushed oid models `revwalk.push(oid)` (`none` = push
fails) followed by `revwalk.count()`.
`networkFetch` models running `git fetch <remote>` in the work dir. -/
structure Repo where
  state : RepositoryState := RepositoryState.clean
  statuses : Option (List EntryStatus) := some []
  head : Option RefM := none
  findBranch : String → Option BranchM := fun _ => none
  findReference : String → Option RefM := fun _ => none
  findRemote : String → Option RemoteM := fun _ => none
  remotes : Option (List String) := some []
  graphAheadBehind : Nat → Nat → Option (Nat × Nat) := fun _ _ => none
  revwalk : Option (Nat → Option Nat) := some fun _ => some 0
  pathSegs : List String := ["repo", ".git"]
  stashCount : Nat := 0
  networkFetch : String → Except String Unit := fun _ => Except.ok ()

/-- Rust `s.split(c)` on a character list: always at least one group,
empty groups kept. -/
def splitChar (c : Char) : List Char → List (List Char)
  | [] => [[]]
  | x :: xs =>
    let rest := splitChar c xs
    if x = c then [] :: rest
    else
      match rest with
      | [] => [[x]]
      | g :: gs => (x :: g) :: gs

/-- One fuelled pass of Rust `trim_end_matches`: drop the suffix `pat`
as long as it matches (fuel bounds the number of drops). -/
def trimEndStepFuel (pat : List Char) : Nat → List Char → List Char
  | 0, s => s
  | n + 1, s =>
    if pat.isSuffixOf s && !pat.isEmpty then
      trimEndStepFuel pat n (s.take (s.length - pat.length))
    else s

/-- Rust `s.trim_end_matches(pat)`: repeatedly strip the suffix `pat`.
`s.length` fuel suffices because each strip removes at least one
character. -/
def trimEndMatchesL (pat s : List Char) : List Char :=
  trimEndStepFuel pat s.length s

/-- `get_remote_name` (src/gitinfo/mod.rs): try "origin" first, else
the first entry of `repo.remotes()`. -/
def get_remote_name (repo : Repo) : Option String :=
  if (repo.findRemote "origin").isSome then some "origin"
  else repo.remotes.bind List.head?

/-- `get_repo_path` (src/gitinfo/mod.rs): the git dir path, with a final
".git" component replaced by its parent. Paths are segment lists. -/
def get_repo_path (repo : Repo) : List String :=
  if repo.pathSegs.getLast? = some ".git" then repo.pathSegs.dropLast
  else repo.pathSegs

/-- The URL-to-name step of `get_repo_name`:
`url.trim_end_matches(".git").split('/').next_back().unwrap_or("unknown")`. -/
def repoNameOfUrl (url : String) : String :=
  ((((splitChar '/' (trimEndMatchesL ".git".toList url.toList))).map
      List.asString).getLast?).getD "unknown"

/-- `get_repo_name` (src/gitinfo/mod.rs): name derived from the preferred
remote's URL; `none` when there is no remote or the remote has no URL. -/
def get_repo_name (repo : Repo) : Option String :=
  match get_remote_name repo with
  | none => none
  | some remote_name =>
    match repo.findRemote remote_name with
    | some remote =>
      match remote.url with
      | some url => some (repoNameOfUrl url)
      | none => none
    | none => none

/-- `get_branch_name` (src/gitinfo/mod.rs). -/
def get_branch_name (repo : Repo) : String :=
  match repo.head with
  | some head =>
    if head.isBranch then
      match head.shorthand with
      | some name => name
      | none =>
        match head.symbolicTarget with
        | some target =>
          match (splitChar '/' target.toList).getLast? with
          | some branch => branch.asString ++ " (no commits)"
          | none => "(no branch)"
        | none => "(no branch)"
    else "N/A"
  | none =>
    match repo.findReference "HEAD" with
    | some headref =>
      match headref.symbolicTarget with
      | some sym =>
        match (splitChar '/' sym.toList).getLast? with
        | some branch => branch.asString ++ " (no commits)"
        | none => "(no branch)"
      | none => "(no branch)"
    | none => "(no branch)"

/-- The branch lookup inside `get_ahead_behind_and_local_status`:
`head.shorthand().map_or_else(|| None, |name| repo.find_branch(name, Local).ok())`. -/
def lookupLocalBranch (repo : Repo) (head : RefM) : Option BranchM :=
  match head.shorthand with
  | none => none
  | some name => repo.findBranch name

/-- `get_ahead_behind_and_local_status` (src/gitinfo/mod.rs). -/
def get_ahead_behind_and_local_status (repo : Repo) : Nat × Nat × Bool :=
  match repo.head with
  | none => (0, 0, true)
  | some head =>
    match lookupLocalBranch repo head with
    | some branch =>
      match branch.upstream with
      | some upstream =>
        match branch.target, upstream.target with
        | some localOid, some upOid =>
          let ab := (repo.graphAheadBehind localOid upOid).getD (0, 0)
          (ab.1, ab.2, false)
        | some _, none => (0, 0, true)
        | none, some _ => (0, 0, true)
        | none, none => (0, 0, true)
      | none => (0, 0, true)
    | none => (0, 0, true)

/-- The upstream resolution embedded in `get_ahead_behind_and_local_status`:
the pair of tip oids when head, local branch, upstream and both targets
all resolve, `none` otherwise. -/
def resolveUpstreamOids (repo : Repo) : Option (Nat × Nat) :=
  match repo.head with
  | none => none
  | some head =>
    match lookupLocalBranch repo head with
    | some branch =>
      match branch.upstream with
      | some upstream =>
        match branch.target, upstream.target with
        | some localOid, some upOid => some (localOid, upOid)
        | some _, none => none
        | none, some _ => none
        | none, none => none
      | none => none
    | none => none

/-- `get_total_commits` (src/gitinfo/mod.rs): 0 for an unborn or
target-less HEAD, otherwise revwalk from the tip; the revwalk creation
and the push are fallible and propagate with the `?` operator. -/
def get_total_commits (repo : Repo) : Except String Nat :=
  match repo.head with
  | none => Except.ok 0
  | some head =>
    match head.target with
    | none => Except.ok 0
    | some oid =>
      match repo.revwalk with
      | none => Except.error "revwalk"
      | some walkPush =>
        match walkPush oid with
        | none => Except.error "revwalk push"
        | some n => Except.ok n

/-- The filter of `get_changed_count` (src/gitinfo/mod.rs), flag order as
in the source. -/
def entryChanged (e : EntryStatus) : Bool :=
  e.wtModified || e.indexModified || e.wtDeleted || e.indexDeleted ||
    e.conflicted || e.wtNew || e.indexNew

/-- `get_changed_count` (src/gitinfo/mod.rs): number of changed entries,
0 when the status listing fails. -/
def get_changed_count (repo : Repo) : Nat :=
  match repo.statuses with
  | none => 0
  | some entries => (entries.filter entryChanged).length

/-- `get_remote_url` (src/gitinfo/mod.rs). -/
def get_remote_url (repo : Repo) : Option String :=
  (get_remote_name repo).bind fun remote_name =>
    (repo.findRemote remote_name).bind fun r => r.url

/-- `fetch_origin` (src/gitinfo/mod.rs): resolve the remote name (error
"No remotes found" when there is none), resolve the work dir, then run
`git fetch <remote>`. -/
def fetch_origin (repo : Repo) : Except String Unit :=
  match get_remote_name repo with
  | none => Except.error "No remotes found"
  | some remote_name =>
    match repo.pathSegs with
    | [] => Except.error "No parent directory found"
    | _ :: _ => repo.networkFetch remote_name

/-- The `Status` enumeration (src/gitinfo/status.rs). -/
inductive Status where
  | clean
  | dirty (count : Nat)
  | merge
  | revert
  | rebase
  | bisect
  | cherryPick
  | unpushed
  | unpublished
  | detached
  | unknown
  deriving DecidableEq, Repr

/-- `get_branch_push_status` (src/gitinfo/mod.rs): classifies the branch
publication state by looking up `refs/remotes/<remote>/<branch>`. -/
def get_branch_push_status (repo : Repo) : Status :=
  match repo.head with
  | none => Status.unknown
  | some head =>
    if !head.isBranch then Status.detached
    else
      match head.shorthand with
      | none => Status.unknown
      | some local_branch =>
        match head.target with
        | none => Status.unknown
        | some local_oid =>
          match get_remote_name repo with
          | none => Status.unpublished
          | some remote_name =>
            match repo.findReference
                ("refs/remotes/" ++ remote_name ++ "/" ++ local_branch) with
            | none => Status.unpublished
            | some remote_ref =>
              match remote_ref.target with
              | none => Status.unpublished
              | some remote_oid =>
                match repo.graphAheadBehind local_oid remote_oid with
                | some (ahead, _) =>
                  if ahead > 0 then Status.unpushed else Status.clean
                | none => Status.unknown

/-- The per-entry predicate of step 2 of `Status::new`:
`e.status().is_ignored() || !e.status().intersects(WT_NEW | ... | CONFLICTED)`. -/
def entryQuiet (e : EntryStatus) : Bool :=
  e.isIgnored ||
    !(e.wtNew || e.wtModified || e.wtDeleted || e.indexNew ||
      e.indexModified || e.indexDeleted || e.conflicted)

/-- Step 2 of `Status::new` (src/gitinfo/status.rs): working-directory
inspection; clean tree defers to the push status, otherwise `Dirty`. -/
def classifyWorkingTree (repo : Repo) : Status :=
  match repo.statuses with
  | none => Status.unknown
  | some entries =>
    if entries.all entryQuiet then get_branch_push_status repo
    else Status.dirty (get_changed_count repo)

/-- `Status::new` (src/gitinfo/status.rs): step 1 handles explicit git
states; only a `Clean` repository state reaches the working-tree step. -/
def Status.new (repo : Repo) : Status :=
  match repo.state with
  | RepositoryState.clean => classifyWorkingTree repo
  | RepositoryState.merge => Status.merge
  | RepositoryState.revert => Status.revert
  | RepositoryState.revertSequence => Status.revert
  | RepositoryState.cherryPick => Status.cherryPick
  | RepositoryState.cherryPickSequence => Status.cherryPick
  | RepositoryState.bisect => Status.bisect
  | RepositoryState.rebase => Status.rebase
  | RepositoryState.rebaseInteractive => Status.rebase
  | RepositoryState.rebaseMerge => Status.rebase
  | RepositoryState.applyMailbox => Status.unknown
  | RepositoryState.applyMailboxOrRebase => Status.unknown

/-- The per-repository report record (src/gitinfo/repoinfo.rs). -/
structure RepoInfo where
  name : String
  branch : String
  ahead : Nat
  behind : Nat
  commits : Nat
  status : Status
  hasUnpushed : Bool
  remoteUrl : Option String
  path : List String
  stashCount : Nat
  isLocalOnly : Bool
  deriving DecidableEq, Repr

/-- `RepoInfo::new` (src/gitinfo/repoinfo.rs): optional fetch first
(its error propagates), then the derived metrics; `get_total_commits`
is the only other fallible step and propagates with `?`. -/
def RepoInfo.new (repo : Repo) (name : String) (show_remote : Bool)
    (fetch : Bool) : Except String RepoInfo :=
  match (if fetch then fetch_origin repo else Except.ok ()) with
  | Except.error e => Except.error e
  | Except.ok _ =>
    match get_total_commits repo with
    | Except.error e => Except.error e
    | Except.ok commits =>
      let abl := get_ahead_behind_and_local_status repo
      Except.ok
        { name := (get_repo_name repo).getD name
          branch := get_branch_name repo
          ahead := abl.1
          behind := abl.2.1
          commits := commits
          status := Status.new repo
          hasUnpushed := abl.1 > 0
          remoteUrl := if show_remote then get_remote_url repo else none
          path := get_repo_path repo
          stashCount := repo.stashCount
          isLocalOnly := abl.2.2 }

/-- The scan options of `Args` that `find_repositories` reads
(src/cli.rs). -/
structure ArgsModel where
  depth : Int := 1
  subdir : Option String := none
  remote : Bool := false
  fetch : Bool := false

/-- One candidate directory yielded by the walker, with the answers the
filesystem and git2 would give for it: `is_git_directory()` for the
directory itself and for `dir/<subdir>`, the `dir_name()` of each, and
the result of `Repository::open` at each ( `none` = open fails). -/
structure Entry where
  origDirName : String := "repo"
  subdirDirName : String := "sub"
  isGitDir : Bool := false
  subdirIsGitDir : Bool := false
  openOrig : Option Repo := none
  openSubdir : Option Repo := none

/-- What processing one candidate contributes to the aggregate. -/
inductive ProcessOutcome where
  | skipped
  | success (info : RepoInfo)
  | failure (name : String)
  deriving DecidableEq, Repr

/-- The open-and-build tail of the per-entry closure in
`Args::find_repositories` (src/cli.rs): open the resolved path, build a
`RepoInfo`; an open error records the resolved path's dir name, a
`RepoInfo::new` error records the candidate's dir name. -/
def buildOutcome (args : ArgsModel) (e : Entry) (openRes : Option Repo)
    (pathBufName : String) : ProcessOutcome :=
  match openRes with
  | some repo =>
    match RepoInfo.new repo e.origDirName args.remote args.fetch with
    | Except.ok info => ProcessOutcome.success info
    | Except.error _ => ProcessOutcome.failure e.origDirName
  | none => ProcessOutcome.failure pathBufName

/-- The per-entry closure of `Args::find_repositories` (src/cli.rs):
resolve the effective repository root (the candidate itself, else the
configured subdirectory), skipping candidates that are no root. -/
def processEntry (args : ArgsModel) (e : Entry) : ProcessOutcome :=
  if e.isGitDir then buildOutcome args e e.openOrig e.origDirName
  else
    match args.subdir with
    | some _ =>
      if e.subdirIsGitDir then buildOutcome args e e.openSubdir e.subdirDirName
      else ProcessOutcome.skipped
    | none => ProcessOutcome.skipped

/-- One aggregation step of `Args::find_repositories` (src/cli.rs): a
success is appended to the repos list, a failure name to the failed
list, a skipped candidate contributes nothing. -/
def scanStep (args : ArgsModel) (acc : List RepoInfo × List String)
    (e : Entry) : List RepoInfo × List String :=
  match processEntry args e with
  | ProcessOutcome.skipped => acc
  | ProcessOutcome.success info => (acc.1 ++ [info], acc.2)
  | ProcessOutcome.failure nm => (acc.1, acc.2 ++ [nm])

/-- The aggregation of `Args::find_repositories` (src/cli.rs): the
parallel iteration appending into the two shared lists is modelled as a
fold over the candidate list; each candidate contributes its outcome
exactly once. -/
def find_repositories (args : ArgsModel) (entries : List Entry) :
    List RepoInfo × List String :=
  entries.foldl (scanStep args) ([], [])

/-- A candidate is a repository root when `is_git_directory()` holds for
it, or a subdirectory is configured and holds it (src/cli.rs, src/util.rs). -/
def isRepoRoot (args : ArgsModel) (e : Entry) : Bool :=
  e.isGitDir || (args.subdir.isSome && e.subdirIsGitDir)

/-- The success an entry contributes, if any. -/
def successOf (args : ArgsModel) (e : Entry) : Option RepoInfo :=
  match processEntry args e with
  | ProcessOutcome.success info => some info
  | _ => none

/-- The failure name an entry contributes, if any. -/
def failureOf (args : ArgsModel) (e : Entry) : Option String :=
  match processEntry args e with
  | ProcessOutcome.failure nm => some nm
  | _ => none

/-- The depth-bound computation of `Args::find_repositories`
(src/cli.rs lines 87-90): `none` is an unbounded walk. -/
def maxDepthOfArg (depth : Int) : Option Nat :=
  if depth ≠ -1 ∧ 0 ≤ depth then
    some (if 0 < depth then depth.toNat else 1)
  else none

/-- A directory below the scan root, at its depth (path segment list;
`[]` is the root itself), with its `is_git_directory()` answer. -/
structure FSEntry where
  path : List String
  isGitDir : Bool
  deriving DecidableEq, Repr

/-- A filesystem under the scan root: the directories the walk can see. -/
structure FS where
  entries : List FSEntry

/-- The walkdir crate's contract as `find_repositories` configures it
(min depth 0, no symlinks): with `max_depth m` it yields exactly the
directories at depth at most `m`, unbounded otherwise. -/
def walkEntriesAt (fs : FS) (maxDepth : Option Nat) : List FSEntry :=
  match maxDepth with
  | some m => fs.entries.filter fun e => e.path.length ≤ m
  | none => fs.entries

/-- The repository candidates a scan at the given depth argument
discovers: walked directories passing `is_git_directory()`. -/
def discovered (fs : FS) (depth : Int) : List (List String) :=
  ((walkEntriesAt fs (maxDepthOfArg depth)).filter fun e => e.isGitDir).map
    fun e => e.path

/-- Display-name derivation following the specification text: strip a
trailing slash and a trailing ".git" suffix, then take the final path
segment. Stated only to compare against `get_repo_name`. -/
def specDisplayNameOfUrl (url : String) : String :=
  let cs := url.toList
  let noSlash := if cs.getLast? = some '/' then cs.dropLast else cs
  let noGit :=
    if ".git".toList.isSuffixOf noSlash then
      noSlash.take (noSlash.length - 4)
    else noSlash
  (((splitChar '/' noGit).map List.asString).getLast?).getD ""

/-- A fresh repository as git2 reports it: clean state, empty status
list, unreadable HEAD, no remotes. -/
def baseRepo : Repo := {}

/-- A repository in merge state whose working tree also has a modified
file. -/
def exMergeDirty : Repo :=
  { state := RepositoryState.merge
    statuses := some [{ wtModified := true }] }

/-- A repository whose branch and upstream resolve but whose
ahead-behind graph comparison fails. -/
def exC3repo : Repo :=
  { head := some { isBranch := true, shorthand := some "main", target := some 1 }
    findBranch := fun n =>
      if n = "main" then
        some { target := some 1, upstream := some { target := some 2 } }
      else none
    graphAheadBehind := fun _ _ => none }

/-- A repository with a readable HEAD tip but a failing revwalk. -/
def exC6repo : Repo :=
  { head := some { isBranch := true, shorthand := some "main", target := some 5 }
    revwalk := none }

/-- A repository whose preferred remote URL ends in a slash. -/
def exC7repo : Repo :=
  { findRemote := fun n =>
      if n = "origin" then some { url := some "https://example.com/team/repo/" }
      else none
    remotes := some ["origin"] }

/-- A repository whose branch has a configured upstream, while no
`refs/remotes/origin/main` remote-tracking ref exists. -/
def exC9repo : Repo :=
  { head := some { isBranch := true, shorthand := some "main", target := some 10 }
    findBranch := fun n =>
      if n = "main" then
        some { target := some 10, upstream := some { target := some 20 } }
      else none
    findRemote := fun n =>
      if n = "origin" then some { url := some "https://example.com/x/y.git" }
      else none
    remotes := some ["origin"]
    graphAheadBehind := fun l u => if l = 10 && u = 20 then some (0, 2) else none }

/-- A candidate directory that is a repository root and opens to
`exC6repo`. -/
def exEntry6 : Entry :=
  { origDirName := "repo6", isGitDir := true, openOrig := some exC6repo }

/-- A candidate directory that is a repository root and opens to the
remote-less `baseRepo`. -/
def exEntry10 : Entry :=
  { origDirName := "repo10", isGitDir := true, openOrig := some baseRepo }

/-- A candidate directory that is no repository root. -/
def exEntryPlain : Entry := { origDirName := "plain" }

/-- A repository with an "origin" remote whose network fetch fails. -/
def exFetchFail : Repo :=
  { findRemote := fun n => if n = "origin" then some {} else none
    remotes := some ["origin"]
    networkFetch := fun _ => Except.error "network down" }

/-- A candidate directory that is a repository root and opens to
`exFetchFail`. -/
def exEntryFF : Entry :=
  { origDirName := "repoF", isGitDir := true, openOrig := some exFetchFail }

/-- Scan options with fetch requested. -/
def exArgsFetch : ArgsModel := { fetch := true }

/-- Scan options with all defaults (no fetch, no subdir). -/
def exArgsPlain : ArgsModel := {}

/-- The exemplar tree of the depth-semantics property:
`root/repoA` and `root/level1/repoB`. -/
def exFS : FS :=
  { entries :=
      [ { path := [], isGitDir := false }
      , { path := ["repoA"], isGitDir := true }
      , { path := ["level1"], isGitDir := false }
      , { path := ["level1", "repoB"], isGitDir := true } ] }

/-- An entry that resolved a repository root never skips: it yields a
success or a failure. -/
theorem buildOutcome_ne_skipped (args : ArgsModel) (e : Entry)
    (openRes : Option Repo) (pathBufName : String) :
    buildOutcome args e openRes pathBufName ≠ ProcessOutcome.skipped := by
  unfold buildOutcome
  cases openRes with
  | none => simp
  | some repo =>
    cases h : RepoInfo.new repo e.origDirName args.remote args.fetch <;>
      simp [h]

/-- A candidate is skipped exactly when it is no repository root. -/
theorem processEntry_skipped_iff (args : ArgsModel) (e : Entry) :
    processEntry args e = ProcessOutcome.skipped ↔ isRepoRoot args e = false := by
  unfold processEntry isRepoRoot
  cases hg : e.isGitDir with
  | true => simp [buildOutcome_ne_skipped]
  | false =>
    cases hs : args.subdir with
    | none => simp [hs]
    | some sd =>
      cases hsub : e.subdirIsGitDir with
      | true => simp [hsub, buildOutcome_ne_skipped]
      | false => simp [hsub]

/-- Unrolling the aggregation fold from an arbitrary accumulator. -/
theorem foldl_scanStep (args : ArgsModel) (entries : List Entry)
    (acc : List RepoInfo × List String) :
    entries.foldl (scanStep args) acc
      = (acc.1 ++ entries.filterMap (successOf args),
         acc.2 ++ entries.filterMap (failureOf args)) := by
  induction entries generalizing acc with
  | nil => simp
  | cons e es ih =>
    simp only [List.foldl_cons, List.filterMap_cons]
    cases hpe : processEntry args e <;>
      simp [scanStep, successOf, failureOf, hpe, ih, List.append_assoc]

/-- The two result lists are exactly the successes and the failures the
individual candidates contribute. -/
theorem find_repositories_characterization (args : ArgsModel)
    (entries : List Entry) :
    find_repositories args entries
      = (entries.filterMap (successOf args),
         entries.filterMap (failureOf args)) := by
  unfold find_repositories
  rw [foldl_scanStep]
  simp

/-- Each repository-root candidate contributes exactly one result. -/
theorem filterMap_outcome_counts (args : ArgsModel) (entries : List Entry) :
    (entries.filterMap (successOf args)).length
      + (entries.filterMap (failureOf args)).length
      = (entries.filter fun e => isRepoRoot args e).length := by
  induction entries with
  | nil => simp
  | cons e es ih =>
    have hiff := processEntry_skipped_iff args e
    cases hpe : processEntry args e with
    | skipped =>
      have hroot : isRepoRoot args e = false := hiff.mp hpe
      simp [successOf, failureOf, hpe, hroot, ih]
    | success info =>
      have hroot : isRepoRoot args e = true := by
        cases hr : isRepoRoot args e
        · exact absurd (hiff.mpr hr) (by simp [hpe])
        · rfl
      simp only [List.filterMap_cons, List.filter_cons, successOf, failureOf,
        hpe, hroot, if_pos]
      simp only [List.length_cons]
      omega
    | failure nm =>
      have hroot : isRepoRoot args e = true := by
        cases hr : isRepoRoot args e
        · exact absurd (hiff.mpr hr) (by simp [hpe])
        · rfl
      simp only [List.filterMap_cons, List.filter_cons, successOf, failureOf,
        hpe, hroot, if_pos]
      simp only [List.length_cons]
      omega

/-- C1: whenever the repository state reports an operation in progress
(merge, revert, cherry-pick, bisect, rebase), `Status::new` returns the
corresponding variant, independently of the working tree; in particular
an active merge with a dirty tree classifies as Merge. The working-tree
step runs only for a Clean repository state. -/
theorem c1_classification_priority (repo : Repo)
    (s : Option (List EntryStatus)) :
    (repo.state = RepositoryState.merge → Status.new repo = Status.merge)
  ∧ ((repo.state = RepositoryState.revert ∨
        repo.state = RepositoryState.revertSequence) →
      Status.new repo = Status.revert)
  ∧ ((repo.state = RepositoryState.cherryPick ∨
        repo.state = RepositoryState.cherryPickSequence) →
      Status.new repo = Status.cherryPick)
  ∧ (repo.state = RepositoryState.bisect → Status.new repo = Status.bisect)
  ∧ ((repo.state = RepositoryState.rebase ∨
        repo.state = RepositoryState.rebaseInteractive ∨
        repo.state = RepositoryState.rebaseMerge) →
      Status.new repo = Status.rebase)
  ∧ (repo.state ≠ RepositoryState.clean →
      Status.new { repo with statuses := s } = Status.new repo)
  ∧ (repo.state = RepositoryState.clean →
      Status.new repo = classifyWorkingTree repo) := by
  refine ⟨?_, ?_, ?_, ?_, ?_, ?_, ?_⟩
  · intro h; simp [Status.new, h]
  · rintro (h | h) <;> simp [Status.new, h]
  · rintro (h | h) <;> simp [Status.new, h]
  · intro h; simp [Status.new, h]
  · rintro (h | h | h) <;> simp [Status.new, h]
  · intro h
    cases hst : repo.state <;> simp_all [Status.new]
  · intro h; simp [Status.new, h]

/-- Witness for C1 at a concrete merge-state repository whose working
tree holds one modified file: it classifies as Merge, while its
working-tree step alone would have said Dirty 1. -/
theorem c1_classification_priority_witness :
    Status.new exMergeDirty = Status.merge
  ∧ classifyWorkingTree exMergeDirty = Status.dirty 1 :=
  ⟨(c1_classification_priority exMergeDirty none).1 rfl, by decide⟩

/-- C2: every repository-root candidate lands in exactly one of the two
result lists (one outcome per candidate, success and failure lists are
disjoint contributions), non-roots contribute to neither, and the scan
returns both lists. -/
theorem c2_exactly_one (args : ArgsModel) (entries : List Entry) :
    ((find_repositories args entries).1.length
        + (find_repositories args entries).2.length
      = (entries.filter fun e => isRepoRoot args e).length)
  ∧ (∀ e : Entry,
      isRepoRoot args e = false ↔ processEntry args e = ProcessOutcome.skipped)
  ∧ find_repositories args entries
      = (entries.filterMap (successOf args),
         entries.filterMap (failureOf args)) := by
  refine ⟨?_, ?_, find_repositories_characterization args entries⟩
  · rw [find_repositories_characterization]
    exact filterMap_outcome_counts args entries
  · intro e
    exact Iff.symm (processEntry_skipped_iff args e)

/-- Witness for C2: a concrete non-root candidate is skipped. -/
theorem c2_exactly_one_witness :
    processEntry exArgsPlain exEntryPlain = ProcessOutcome.skipped :=
  ((c2_exactly_one exArgsPlain []).2.1 exEntryPlain).mp rfl

/-- Counterexample for C3: a repository whose branch and upstream both
resolve but whose graph comparison fails gets `(0, 0, false)` from the
divergence analyzer, not `(0, 0, true)` as the claim states. -/
theorem c3_counterexample :
    exC3repo.graphAheadBehind 1 2 = none
  ∧ resolveUpstreamOids exC3repo = some (1, 2)
  ∧ get_ahead_behind_and_local_status exC3repo = (0, 0, false)
  ∧ get_ahead_behind_and_local_status exC3repo ≠ (0, 0, true) :=
  ⟨rfl, rfl, rfl, by decide⟩

/-- C3 (amended): an unresolvable upstream (unreadable HEAD, no branch,
no upstream, missing tip) yields `(0, 0, true)`; a graph-comparison
failure after a resolved upstream falls back to ahead 0, behind 0 but
`is_local_only = false`; no error is ever produced. -/
theorem c3_divergence_fallback (repo : Repo) :
    (repo.head = none → get_ahead_behind_and_local_status repo = (0, 0, true))
  ∧ (resolveUpstreamOids repo = none →
      get_ahead_behind_and_local_status repo = (0, 0, true))
  ∧ (∀ l u, resolveUpstreamOids repo = some (l, u) →
      get_ahead_behind_and_local_status repo
        = (((repo.graphAheadBehind l u).getD (0, 0)).1,
           ((repo.graphAheadBehind l u).getD (0, 0)).2, false)) := by
  refine ⟨?_, ?_, ?_⟩
  · intro h; simp [get_ahead_behind_and_local_status, h]
  · intro h
    unfold get_ahead_behind_and_local_status
    unfold resolveUpstreamOids at h
    cases hh : repo.head with
    | none => simp
    | some head =>
      simp only [hh] at h ⊢
      cases hb : lookupLocalBranch repo head with
      | none => simp
      | some branch =>
        simp only [hb] at h ⊢
        cases hu : branch.upstream with
        | none => simp
        | some upstream =>
          simp only [hu] at h ⊢
          cases ht : branch.target <;> cases ht2 : upstream.target <;>
            simp_all
  · intro l u h
    unfold get_ahead_behind_and_local_status
    unfold resolveUpstreamOids at h
    cases hh : repo.head with
    | none => simp [hh] at h
    | some head =>
      simp only [hh] at h ⊢
      cases hb : lookupLocalBranch repo head with
      | none => simp [hb] at h
      | some branch =>
        simp only [hb] at h ⊢
        cases hu : branch.upstream with
        | none => simp [hu] at h
        | some upstream =>
          simp only [hu] at h ⊢
          cases ht : branch.target <;> cases ht2 : upstream.target <;>
            simp_all

/-- Witness for C3 (amended) at a concrete repository with unreadable
HEAD. -/
theorem c3_divergence_fallback_witness :
    get_ahead_behind_and_local_status baseRepo = (0, 0, true) :=
  (c3_divergence_fallback baseRepo).1 rfl

/-- Counterexample for C4: a fresh zero-commit repository (clean state,
empty status list, unreadable HEAD) classifies as Unknown, not Clean and
not Unpublished. -/
theorem c4_counterexample :
    baseRepo.head = none
  ∧ baseRepo.state = RepositoryState.clean
  ∧ Status.new baseRepo = Status.unknown
  ∧ Status.new baseRepo ≠ Status.clean
  ∧ Status.new baseRepo ≠ Status.unpublished :=
  ⟨rfl, rfl, rfl, by decide, by decide⟩

/-- C4 (amended): a zero-commit repository with no special state and a
clean working tree is classified by the same generic rules, which route
it through the push-status step; since HEAD is unreadable that step
returns Unknown (not Clean or Unpublished), and the total-commit metric
reports 0. -/
theorem c4_unborn_head_classifies_unknown (repo : Repo)
    (es : List EntryStatus)
    (h1 : repo.state = RepositoryState.clean)
    (h2 : repo.head = none)
    (h3 : repo.statuses = some es)
    (h4 : es.all entryQuiet = true) :
    Status.new repo = Status.unknown
  ∧ get_total_commits repo = Except.ok 0 := by
  constructor
  · simp [Status.new, h1, classifyWorkingTree, h3, h4,
      get_branch_push_status, h2]
  · simp [get_total_commits, h2]

/-- Witness for C4 (amended) at the concrete fresh repository. -/
theorem c4_unborn_head_classifies_unknown_witness :
    Status.new baseRepo = Status.unknown
  ∧ get_total_commits baseRepo = Except.ok 0 :=
  c4_unborn_head_classifies_unknown baseRepo [] rfl rfl rfl rfl

/-- C5: with fetch requested, a failing fetch makes the repository a
scan failure: the candidate's name joins the failure list, no report is
produced for it, and every other candidate's contribution is unchanged. -/
theorem c5_fetch_failure_is_scan_failure (args : ArgsModel) (e : Entry)
    (repo : Repo) (err : String)
    (h1 : args.fetch = true) (h2 : e.isGitDir = true)
    (h3 : e.openOrig = some repo)
    (h4 : fetch_origin repo = Except.error err) :
    processEntry args e = ProcessOutcome.failure e.origDirName
  ∧ (∀ pre post : List Entry,
      (find_repositories args (pre ++ e :: post)).1
        = (find_repositories args pre).1 ++ (find_repositories args post).1
      ∧ (find_repositories args (pre ++ e :: post)).2
        = (find_repositories args pre).2
            ++ e.origDirName :: (find_repositories args post).2) := by
  have hpe : processEntry args e = ProcessOutcome.failure e.origDirName := by
    simp [processEntry, h2, buildOutcome, h3, RepoInfo.new, h1, h4]
  refine ⟨hpe, ?_⟩
  intro pre post
  constructor
  · simp [find_repositories_characterization, List.filterMap_append,
      successOf, hpe]
  · simp [find_repositories_characterization, List.filterMap_append,
      failureOf, hpe]

/-- Witness for C5 at a concrete repository whose network fetch fails. -/
theorem c5_fetch_failure_is_scan_failure_witness :
    processEntry exArgsFetch exEntryFF = ProcessOutcome.failure "repoF" :=
  (c5_fetch_failure_is_scan_failure exArgsFetch exEntryFF exFetchFail
    "network down" rfl rfl rfl rfl).1

/-- Counterexample for C6: a repository whose revwalk creation fails
makes `get_total_commits` return an error, and the repository is
recorded as a scan failure. -/
theorem c6_counterexample :
    get_total_commits exC6repo = Except.error "revwalk"
  ∧ processEntry exArgsPlain exEntry6 = ProcessOutcome.failure "repo6" :=
  ⟨rfl, by decide⟩

/-- C6 (amended): the total-commit metric returns the revwalk count of
the HEAD tip, returns 0 when HEAD is unborn or has no target, but
errors when the revwalk cannot be created or the tip cannot be pushed;
such an error records the repository as a scan failure. -/
theorem c6_total_commits_error_behavior (repo : Repo) :
    ((repo.head = none ∨ ∃ h, repo.head = some h ∧ h.target = none) →
      get_total_commits repo = Except.ok 0)
  ∧ (∀ h oid f n, repo.head = some h → h.target = some oid →
      repo.revwalk = some f → f oid = some n →
      get_total_commits repo = Except.ok n)
  ∧ (∀ msg, get_total_commits repo = Except.error msg →
      ∀ args e, args.fetch = false → e.isGitDir = true →
        e.openOrig = some repo →
        processEntry args e = ProcessOutcome.failure e.origDirName) := by
  refine ⟨?_, ?_, ?_⟩
  · rintro (h | ⟨hd, hh, ht⟩)
    · simp [get_total_commits, h]
    · simp [get_total_commits, hh, ht]
  · intro h oid f n hh ht hr hf
    simp [get_total_commits, hh, ht, hr, hf]
  · intro msg herr args e hf hg ho
    simp [processEntry, hg, buildOutcome, ho, RepoInfo.new, hf, herr]

/-- Witness for C6 (amended): the failing-revwalk repository becomes a
failure entry in the scan. -/
theorem c6_total_commits_error_behavior_witness :
    processEntry exArgsPlain exEntry6 = ProcessOutcome.failure "repo6" :=
  (c6_total_commits_error_behavior exC6repo).2.2 "revwalk" rfl
    exArgsPlain exEntry6 rfl rfl rfl

/-- Counterexample for C7: for a remote URL with a trailing slash the
code derives the empty display name (it never strips a trailing slash),
while the claimed derivation gives "repo"; the empty name is used, the
directory-name fallback does not apply. -/
theorem c7_counterexample :
    get_repo_name exC7repo = some ""
  ∧ specDisplayNameOfUrl "https://example.com/team/repo/" = "repo"
  ∧ ("" : String) ≠ "repo"
  ∧ (RepoInfo.new exC7repo "dirname" false false).toOption.map
      RepoInfo.name = some "" := by
  refine ⟨by decide, by decide, by decide, by decide⟩

/-- C7 (amended): the display name is obtained by stripping trailing
".git" suffixes (not a trailing slash) and taking the substring after
the last slash, which is empty for URLs ending in a slash; the
directory-name fallback applies exactly when no remote resolves or the
remote has no URL. -/
theorem c7_display_name (repo : Repo) :
    (∀ rn r url, get_remote_name repo = some rn →
        repo.findRemote rn = some r → r.url = some url →
        get_repo_name repo = some (repoNameOfUrl url))
  ∧ (get_remote_name repo = none → get_repo_name repo = none)
  ∧ (∀ rn r, get_remote_name repo = some rn →
        repo.findRemote rn = some r → r.url = none →
        get_repo_name repo = none)
  ∧ repoNameOfUrl "https://example.com/team/repo.git" = "repo"
  ∧ repoNameOfUrl "https://example.com/team/repo/" = "" := by
  refine ⟨?_, ?_, ?_, by decide, by decide⟩
  · intro rn r url hrn hr hu
    simp [get_repo_name, hrn, hr, hu]
  · intro h
    simp [get_repo_name, h]
  · intro rn r hrn hr hu
    simp [get_repo_name, hrn, hr, hu]

/-- Witness for C7 (amended) at the concrete trailing-slash repository. -/
theorem c7_display_name_witness :
    get_repo_name exC7repo
      = some (repoNameOfUrl "https://example.com/team/repo/") :=
  (c7_display_name exC7repo).1 "origin"
    { url := some "https://example.com/team/repo/" }
    "https://example.com/team/repo/" (by decide) (by decide) rfl

/-- C8: depth arguments 0 and 1 both bound the walk to the root and its
immediate children, any negative depth walks unbounded, a positive depth
N bounds the walk to N levels; on the exemplar tree root/repoA,
root/level1/repoB, depth 1 discovers only repoA while depth 3 discovers
both. -/
theorem c8_depth_semantics :
    (maxDepthOfArg 0 = some 1 ∧ maxDepthOfArg 1 = some 1)
  ∧ (∀ fs : FS, discovered fs 0 = discovered fs 1)
  ∧ (∀ fs : FS, ∀ e ∈ walkEntriesAt fs (maxDepthOfArg 1),
      e.path.length ≤ 1)
  ∧ (∀ d : Int, d < 0 → maxDepthOfArg d = none)
  ∧ (∀ fs : FS, walkEntriesAt fs none = fs.entries)
  ∧ (∀ n : Nat, 0 < n → maxDepthOfArg (n : Int) = some n)
  ∧ discovered exFS 1 = [["repoA"]]
  ∧ discovered exFS 3 = [["repoA"], ["level1", "repoB"]] := by
  refine ⟨⟨by decide, by decide⟩, ?_, ?_, ?_, fun _ => rfl, ?_,
    by decide, by decide⟩
  · intro fs
    have h0 : maxDepthOfArg 0 = some 1 := by decide
    have h1 : maxDepthOfArg 1 = some 1 := by decide
    simp [discovered, h0, h1]
  · intro fs e he
    have h1 : maxDepthOfArg 1 = some 1 := by decide
    rw [h1] at he
    simp only [walkEntriesAt, List.mem_filter, decide_eq_true_eq] at he
    exact he.2
  · intro d hd
    unfold maxDepthOfArg
    rw [if_neg]
    rintro ⟨-, h2⟩
    omega
  · intro n hn
    unfold maxDepthOfArg
    rw [if_pos ⟨by omega, by omega⟩, if_pos (by exact_mod_cast hn)]
    simp

/-- Witness for C8: negative and positive depth arguments translated at
concrete inputs. -/
theorem c8_depth_semantics_witness :
    maxDepthOfArg (-5) = none ∧ maxDepthOfArg ((3 : Nat) : Int) = some 3 :=
  ⟨c8_depth_semantics.2.2.2.1 (-5) (by decide),
   c8_depth_semantics.2.2.2.2.2.1 3 (by decide)⟩

/-- C9: a repository exists whose branch has a configured upstream (so
the divergence analyzer reports `is_local_only = false` with real
counts) while no `refs/remotes/origin/<branch>` ref exists, so the
push-status step — which builds that ref name from the preferred remote
and the local branch name instead of reusing the configured upstream —
reports Unpublished. -/
theorem c9_push_status_ignores_configured_upstream :
    exC9repo.findReference "refs/remotes/origin/main" = none
  ∧ get_branch_push_status exC9repo = Status.unpublished
  ∧ get_ahead_behind_and_local_status exC9repo = (0, 2, false) :=
  ⟨rfl, by decide, rfl⟩

/-- C10: a repository with no remotes at all, scanned with fetch
requested, becomes a scan failure: `fetch_origin` errors with
"No remotes found" independently of the network capability, and the
candidate's name joins the failure list. -/
theorem c10_fetch_without_remotes_fails (args : ArgsModel) (e : Entry)
    (repo : Repo)
    (h1 : args.fetch = true) (h2 : e.isGitDir = true)
    (h3 : e.openOrig = some repo)
    (h4 : repo.findRemote "origin" = none) (h5 : repo.remotes = some []) :
    fetch_origin repo = Except.error "No remotes found"
  ∧ (∀ f, fetch_origin { repo with networkFetch := f }
      = Except.error "No remotes found")
  ∧ processEntry args e = ProcessOutcome.failure e.origDirName := by
  have hrn : get_remote_name repo = none := by
    simp [get_remote_name, h4, h5]
  have hfo : fetch_origin repo = Except.error "No remotes found" := by
    simp [fetch_origin, hrn]
  refine ⟨hfo, ?_, ?_⟩
  · intro f
    have hrn2 : get_remote_name { repo with networkFetch := f } = none := by
      simp [get_remote_name, h4, h5]
    simp [fetch_origin, hrn2]
  · simp [processEntry, h2, buildOutcome, h3, RepoInfo.new, h1, hfo]

/-- Witness for C10 at the concrete remote-less repository. -/
theorem c10_fetch_without_remotes_fails_witness :
    processEntry exArgsFetch exEntry10 = ProcessOutcome.failure "repo10" :=
  (c10_fetch_without_remotes_fails exArgsFetch exEntry10 baseRepo
    rfl rfl rfl rfl rfl).2.2
